import Mathlib

/-!
Shallow embedding of the drivercraft/ethernet-intel igb driver (src/igb/src),
with theorems checking the natural-language specification against it.

Machine integers are modelled as `Nat`; every bit operation used by the
driver (`&`, `|`, `>>`, `<<`, `^`) is width-preserving or explicitly masked,
so no wrap-around modelling is needed except where noted.
-/

/-- Error taxonomy from src/igb/src/err.rs (`DError`). -/
inductive DError where
  | Unknown (msg : String)
  | Timeout
  | NoMemory
  | InvalidParameter
deriving DecidableEq

/-- Model of tock-registers `Field`: `mask` is the UNSHIFTED mask
`(1 << numbits) - 1` and `shift` is the bit offset, exactly as the
`register_bitfields!` macro generates them. -/
structure RegField where
  mask : Nat
  shift : Nat
deriving DecidableEq

/-- tock-registers `Field::new((1 << numbits) - 1, offset)` as produced by
`register_bitfields! [ .. F OFFSET(o) NUMBITS(n) [] .. ]`. -/
def mkRegField (offset numbits : Nat) : RegField :=
  ⟨2 ^ numbits - 1, offset⟩

/-- tock-registers `Field::read`: `(val & (mask << shift)) >> shift`. -/
def RegField.readVal (f : RegField) (val : Nat) : Nat :=
  (val &&& (f.mask <<< f.shift)) >>> f.shift

/-- tock-registers `Field::is_set`: `val & (mask << shift) != 0`. -/
def RegField.isSetIn (f : RegField) (val : Nat) : Bool :=
  val &&& (f.mask <<< f.shift) != 0

/-- Model of tock-registers `FieldValue`: here `mask` and `value` are the
SHIFTED mask and value, as `FieldValue::new` computes them. -/
structure RegFieldValue where
  mask : Nat
  value : Nat
deriving DecidableEq

/-- tock-registers `FieldValue::new(mask, shift, value)` for a field declared
with the given offset and width. -/
def mkRegFieldValue (offset numbits v : Nat) : RegFieldValue :=
  ⟨(2 ^ numbits - 1) <<< offset, (v &&& (2 ^ numbits - 1)) <<< offset⟩

/-- tock-registers `FieldValue + FieldValue` (unions masks, ors values). -/
def RegFieldValue.add (a b : RegFieldValue) : RegFieldValue :=
  ⟨a.mask ||| b.mask, a.value ||| b.value⟩

/-- tock-registers `Readable::modify`: `(old & !fv.mask) | fv.value`,
on a 32-bit register. -/
def regModify32 (old : Nat) (fv : RegFieldValue) : Nat :=
  (old &&& ((2 ^ 32 - 1) ^^^ fv.mask)) ||| fv.value

/-! ## Descriptor codec (src/igb/src/descriptor.rs)

Bitfield constants exactly as declared by the `register_bitfields!` blocks. -/

def RX_DESC_READ_PKT_ADDR_NSE : RegField := mkRegField 0 1

def RX_DESC_READ_HDR_ADDR_DD : RegField := mkRegField 0 1

def RX_DESC_WB_HI_VLAN_LEN_VLAN_TAG : RegField := mkRegField 16 16

def RX_DESC_WB_HI_VLAN_LEN_PKT_LEN : RegField := mkRegField 0 16

def RX_DESC_WB_HI_ERROR_STATUS_EXT_ERROR : RegField := mkRegField 20 12

def RX_DESC_WB_HI_ERROR_STATUS_RSS_TYPE : RegField := mkRegField 17 3

def RX_DESC_WB_HI_ERROR_STATUS_PKT_TYPE : RegField := mkRegField 4 13

def RX_DESC_EXT_STATUS_DD : RegField := mkRegField 0 1

def RX_DESC_EXT_STATUS_EOP : RegField := mkRegField 1 1

def RX_DESC_EXT_ERROR_HBO : RegField := mkRegField 3 1

def RX_DESC_EXT_ERROR_SECERR : RegField := mkRegField 7 2

def RX_DESC_EXT_ERROR_L4E : RegField := mkRegField 9 1

def RX_DESC_EXT_ERROR_IPE : RegField := mkRegField 10 1

def RX_DESC_EXT_ERROR_RXE : RegField := mkRegField 11 1

/-- Bitwise NOT on u64: `!x` in Rust at width 64. -/
def u64Not (x : Nat) : Nat := (2 ^ 64 - 1) ^^^ x

/-- Bitwise NOT on u32. -/
def u32Not (x : Nat) : Nat := (2 ^ 32 - 1) ^^^ x

/-- Bitwise NOT on u16. -/
def u16Not (x : Nat) : Nat := (2 ^ 16 - 1) ^^^ x

/-- Advanced RX descriptor, read (software-posted) layout: two u64 words. -/
structure AdvRxDescRead where
  pkt_addr : Nat
  hdr_addr : Nat
deriving DecidableEq

/-- `AdvRxDescRead::new(pkt_addr, hdr_addr, nse)` from descriptor.rs:
sets or clears the NSE low bit of `pkt_addr` and clears the DD low bit of
`hdr_addr`.  The source contains no assertion: it is a total function. -/
def AdvRxDescRead.new (pkt_addr hdr_addr : Nat) (nse : Bool) : AdvRxDescRead :=
  let pkt := if nse then pkt_addr ||| RX_DESC_READ_PKT_ADDR_NSE.mask
             else pkt_addr &&& u64Not RX_DESC_READ_PKT_ADDR_NSE.mask
  ⟨pkt, hdr_addr &&& u64Not RX_DESC_READ_HDR_ADDR_DD.mask⟩

/-- The spec's reading of `make_rx_read`, for comparison with the source
constructor.  Modelled from the spec: "Asserts that both supplied addresses
are even", so odd addresses are rejected (`none` = assertion failure). -/
def make_rx_read_spec (pkt_addr hdr_addr : Nat) (nse : Bool) :
    Option AdvRxDescRead :=
  if pkt_addr % 2 = 0 ∧ hdr_addr % 2 = 0 then
    some (AdvRxDescRead.new pkt_addr hdr_addr nse)
  else
    none

/-- Advanced RX descriptor, write-back layout, as four u32 dwords
(`LoFields.rss_hash_or_csum_ip`, `LoFields.hdr_status`,
`HiFields.error_type_status`, `HiFields.vlan_length`). -/
structure AdvRxDescWB where
  rss_hash_or_csum_ip : Nat
  hdr_status : Nat
  error_type_status : Nat
  vlan_length : Nat
deriving DecidableEq

/-- `AdvRxDescWB::is_done`: `error_type_status & RX_DESC_EXT_STATUS::DD.mask != 0`. -/
def AdvRxDescWB.is_done (d : AdvRxDescWB) : Bool :=
  d.error_type_status &&& RX_DESC_EXT_STATUS_DD.mask != 0

/-- `AdvRxDescWB::packet_length`:
`(vlan_length & RX_DESC_WB_HI_VLAN_LEN::PKT_LEN.mask) as u16`. -/
def AdvRxDescWB.packet_length (d : AdvRxDescWB) : Nat :=
  (d.vlan_length &&& RX_DESC_WB_HI_VLAN_LEN_PKT_LEN.mask) % 2 ^ 16

/-- `AdvRxDescWB::vlan_tag`:
`((vlan_length & VLAN_TAG.mask) >> VLAN_TAG.shift) as u16`. -/
def AdvRxDescWB.vlan_tag (d : AdvRxDescWB) : Nat :=
  ((d.vlan_length &&& RX_DESC_WB_HI_VLAN_LEN_VLAN_TAG.mask) >>>
    RX_DESC_WB_HI_VLAN_LEN_VLAN_TAG.shift) % 2 ^ 16

/-- `AdvRxDescWB::packet_type`:
`((error_type_status & PKT_TYPE.mask) >> PKT_TYPE.shift) as u16`. -/
def AdvRxDescWB.packet_type (d : AdvRxDescWB) : Nat :=
  ((d.error_type_status &&& RX_DESC_WB_HI_ERROR_STATUS_PKT_TYPE.mask) >>>
    RX_DESC_WB_HI_ERROR_STATUS_PKT_TYPE.shift) % 2 ^ 16

/-- `AdvRxDescWB::rss_type`:
`((error_type_status & RSS_TYPE.mask) >> RSS_TYPE.shift) as u8`. -/
def AdvRxDescWB.rss_type (d : AdvRxDescWB) : Nat :=
  ((d.error_type_status &&& RX_DESC_WB_HI_ERROR_STATUS_RSS_TYPE.mask) >>>
    RX_DESC_WB_HI_ERROR_STATUS_RSS_TYPE.shift) % 2 ^ 8

/-- `AdvRxDescWB::has_errors`:
`(error_type_status & EXT_ERROR.mask) != 0 ||
 (error_type_status & (L4E.mask | IPE.mask | RXE.mask)) != 0`. -/
def AdvRxDescWB.has_errors (d : AdvRxDescWB) : Bool :=
  (d.error_type_status &&& RX_DESC_WB_HI_ERROR_STATUS_EXT_ERROR.mask != 0) ||
  (d.error_type_status &&&
    (RX_DESC_EXT_ERROR_L4E.mask ||| RX_DESC_EXT_ERROR_IPE.mask |||
      RX_DESC_EXT_ERROR_RXE.mask) != 0)

/-- The spec's reading of `has_error` for comparison: disjunction of a
non-zero extended-error field (dword bits 31:20) with the L4E (29), IPE (30)
and RXE (31) dword bits. -/
def has_error_spec (error_type_status : Nat) : Bool :=
  ((error_type_status >>> 20) &&& (2 ^ 12 - 1) != 0) ||
  error_type_status.testBit 29 || error_type_status.testBit 30 ||
  error_type_status.testBit 31

/-! ## Theorems for the descriptor codec claims -/

/-- C3 evaluation: the source `has_errors` masks `error_type_status` with the
UNSHIFTED tock-registers field masks (`EXT_ERROR.mask = 0xFFF`,
`L4E.mask | IPE.mask | RXE.mask = 0x1`), so it tests dword bits 11:0.  At
`error_type_status = 0x100000` the extended-error field (bits 31:20) is
non-zero yet `has_errors` is `false`; at `0x10` only a packet-type bit
(bit 4) is set yet `has_errors` is `true`; at `0x1` only DD is set yet
`has_errors` is `true`.  Each case contradicts the claimed behaviour
(captured by `has_error_spec`). -/
theorem c3_has_errors_uses_unshifted_masks :
    AdvRxDescWB.has_errors ⟨0, 0, 0x100000, 0⟩ = false ∧
    has_error_spec 0x100000 = true ∧
    AdvRxDescWB.has_errors ⟨0, 0, 0x10, 0⟩ = true ∧
    has_error_spec 0x10 = false ∧
    AdvRxDescWB.has_errors ⟨0, 0, 0x1, 0⟩ = true ∧
    has_error_spec 0x1 = false := by
  decide

/-- C4 evaluation at the spec's S3 inputs: with `vlan_length = 0x12340064`
the parsed `packet_length` is 100 as claimed, but `vlan_tag` is 0, not
0x1234 (the source shifts by 16 after masking with the unshifted 0xFFFF
mask); with `error_type_status = 0x04000001`, `done`, `packet_type`,
`rss_type` and `has_error` come out as the claim states. -/
theorem c4_s3_parsing_eval :
    AdvRxDescWB.packet_length ⟨0, 0, 0, 0x12340064⟩ = 100 ∧
    AdvRxDescWB.vlan_tag ⟨0, 0, 0, 0x12340064⟩ = 0 ∧
    AdvRxDescWB.is_done ⟨0, 0, 0x04000001, 0⟩ = true ∧
    AdvRxDescWB.packet_type ⟨0, 0, 0x04000001, 0⟩ = 0 ∧
    AdvRxDescWB.rss_type ⟨0, 0, 0x04000001, 0⟩ = 0 ∧
    AdvRxDescWB.has_errors ⟨0, 0, 0x04000001, 0⟩ = true := by
  decide

/-- C5 counterexample: the claimed evenness assertion does not exist.  On the
odd addresses 3 and 5 the spec-side checked constructor rejects the input,
while the source constructor returns normally, silently overwriting the low
address bits. -/
theorem c5_counterexample_no_alignment_assert :
    make_rx_read_spec 3 5 false = none ∧
    AdvRxDescRead.new 3 5 false = ⟨2, 4⟩ := by
  decide

/-- C5 amended: for every input, `AdvRxDescRead::new` forces bit 0 of the
header address (the DD write-back bit) to 0 and sets bit 0 of the packet
address (NSE) to the requested flag; it performs no alignment assertion
(it is total, and an odd low bit is overwritten rather than rejected). -/
theorem c5_make_rx_read_low_bits (pkt_addr hdr_addr : Nat) (nse : Bool) :
    (AdvRxDescRead.new pkt_addr hdr_addr nse).hdr_addr.testBit 0 = false ∧
    (AdvRxDescRead.new pkt_addr hdr_addr nse).pkt_addr.testBit 0 = nse := by
  unfold AdvRxDescRead.new
  cases nse <;>
    simp [Nat.testBit_land, Nat.testBit_lor, u64Not,
      RX_DESC_READ_PKT_ADDR_NSE, RX_DESC_READ_HDR_ADDR_DD, mkRegField]

/-! ## Polling helper (src/igb/src/osal.rs `wait_for`)

`wait_for(f, interval, try_count)` polls `f` up to `try_count` times
(defaulting to `usize::MAX`), sleeping `interval` after each failed poll,
and returns `Err(Timeout)` once the budget is exhausted.  The model records
the number of polls performed and the accumulated sleep time. -/

instance {e a : Type} [DecidableEq e] [DecidableEq a] :
    DecidableEq (Except e a) := fun x y =>
  match x, y with
  | .ok u, .ok v =>
    if h : u = v then isTrue (by rw [h])
    else isFalse (fun hc => h (Except.ok.inj hc))
  | .error u, .error v =>
    if h : u = v then isTrue (by rw [h])
    else isFalse (fun hc => h (Except.error.inj hc))
  | .ok _, .error _ => isFalse (fun hc => Except.noConfusion hc)
  | .error _, .ok _ => isFalse (fun hc => Except.noConfusion hc)

structure WaitResult where
  result : Except DError Unit
  polls : Nat
  sleptMs : Nat
deriving DecidableEq

/-- The loop of `wait_for`: `remaining` iterations left, `i` polls already
performed (each failed poll was followed by one `sleep(interval)`). -/
def waitForGo (f : Nat → Bool) (intervalMs : Nat) : Nat → Nat → WaitResult
  | 0, i => ⟨.error .Timeout, i, i * intervalMs⟩
  | remaining + 1, i =>
    if f i then ⟨.ok (), i + 1, i * intervalMs⟩
    else waitForGo f intervalMs remaining (i + 1)

/-- `wait_for` from osal.rs: `try_count.unwrap_or(usize::MAX)` attempts. -/
def wait_for (f : Nat → Bool) (intervalMs : Nat) (tryCount : Option Nat) :
    WaitResult :=
  waitForGo f intervalMs (tryCount.getD (2 ^ 64 - 1)) 0

theorem waitForGo_timeout (f : Nat → Bool) (intervalMs : Nat) :
    ∀ n i, (∀ j, f j = false) →
      waitForGo f intervalMs n i = ⟨.error .Timeout, i + n, (i + n) * intervalMs⟩ := by
  intro n
  induction n with
  | zero => intro i _; simp [waitForGo]
  | succ m ih =>
    intro i h
    rw [waitForGo]
    simp only [h i, Bool.false_eq_true, if_false]
    rw [ih (i + 1) h]
    have he : i + 1 + m = i + (m + 1) := by omega
    rw [he]

theorem waitForGo_success (f : Nat → Bool) (intervalMs : Nat) :
    ∀ n k i, k < n → (∀ j, j < k → f (i + j) = false) → f (i + k) = true →
      waitForGo f intervalMs n i = ⟨.ok (), i + k + 1, (i + k) * intervalMs⟩ := by
  intro n
  induction n with
  | zero => intro k i hk; omega
  | succ m ih =>
    intro k i hk hbefore hit
    match k with
    | 0 =>
      rw [waitForGo]
      simp only [Nat.add_zero] at hit
      simp [hit]
    | Nat.succ k0 =>
      rw [waitForGo]
      have h0 : f i = false := by
        have := hbefore 0 (by omega)
        simpa using this
      simp only [h0, Bool.false_eq_true, if_false]
      have hrec := ih k0 (i + 1) (by omega)
        (fun j hj => by
          have := hbefore (j + 1) (by omega)
          have he : i + 1 + j = i + (j + 1) := by omega
          rw [he]; exact this)
        (by have he : i + 1 + k0 = i + (k0 + 1) := by omega
            rw [he]; exact hit)
      have he : i + 1 + k0 = i + (k0 + 1) := by omega
      rw [hrec, he]

/-! ## MAC register interface (src/igb/src/mac.rs) -/

/-- CTRL register fields from mac.rs (`RST` bit 26, `PHY_RST` bit 31). -/
def CTRL_RST_Reset : RegFieldValue := mkRegFieldValue 26 1 1

def CTRL_PHY_RST_SET : RegFieldValue := mkRegFieldValue 31 1 1

/-- The write performed by `Mac::reset`:
`ctrl.modify(CTRL::RST::Reset + CTRL::PHY_RST::SET)`. -/
def Mac.ctrl_after_reset_write (ctrl : Nat) : Nat :=
  regModify32 ctrl (CTRL_RST_Reset.add CTRL_PHY_RST_SET)

/-- The poll predicate of `Mac::reset`:
`ctrl.matches_any(&[CTRL::RST::Normal])`, i.e. bits 26 of the freshly read
CTRL value equal 0.  `ctrlReads i` is the CTRL value volatile-read at the
i-th poll. -/
def Mac.reset_poll (ctrlReads : Nat → Nat) (i : Nat) : Bool :=
  ctrlReads i &&& ((2 ^ 1 - 1) <<< 26) == 0

/-- `Mac::reset`'s wait: `wait_for(.., Duration::from_millis(1), Some(1000))`. -/
def Mac.reset (ctrlReads : Nat → Nat) : WaitResult :=
  wait_for (Mac.reset_poll ctrlReads) 1 (some 1000)

/-- MDIC register fields (mac.rs): DATA bits 15:0, READY bit 28, E bit 30. -/
def MDIC_DATA : RegField := mkRegField 0 16

def MDIC_READY : RegField := mkRegField 28 1

def MDIC_E : RegField := mkRegField 30 1

/-- The polling loop of `Mac::read_mdic`, fuel-indexed: `mdicReads t` is the
MDIC value extracted at the t-th loop iteration.  `none` means the loop has
not returned within the given number of iterations (the source loop is
unbounded: `loop { .. }` with no sleep and no attempt budget). -/
def readMdicLoop (mdicReads : Nat → Nat) : Nat → Nat → Option (Except DError Nat)
  | 0, _ => none
  | fuel + 1, t =>
    let mdic := mdicReads t
    if MDIC_READY.isSetIn mdic then some (.ok (MDIC_DATA.readVal mdic))
    else if MDIC_E.isSetIn mdic then some (.error (.Unknown "MDIC read error"))
    else readMdicLoop mdicReads fuel (t + 1)

/-- The polling loop of `Mac::write_mdic` (same shape; breaks with `Ok(())`
on READY). -/
def writeMdicLoop (mdicReads : Nat → Nat) : Nat → Nat → Option (Except DError Unit)
  | 0, _ => none
  | fuel + 1, t =>
    let mdic := mdicReads t
    if MDIC_READY.isSetIn mdic then some (.ok ())
    else if MDIC_E.isSetIn mdic then some (.error (.Unknown "MDIC read error"))
    else writeMdicLoop mdicReads fuel (t + 1)

theorem readMdicLoop_quiet (mdicReads : Nat → Nat)
    (h : ∀ t, MDIC_READY.isSetIn (mdicReads t) = false ∧
      MDIC_E.isSetIn (mdicReads t) = false) :
    ∀ fuel t, readMdicLoop mdicReads fuel t = none := by
  intro fuel
  induction fuel with
  | zero => intro t; rfl
  | succ m ih =>
    intro t
    rw [readMdicLoop]
    simp only [(h t).1, (h t).2, if_false]
    exact ih (t + 1)

theorem writeMdicLoop_quiet (mdicReads : Nat → Nat)
    (h : ∀ t, MDIC_READY.isSetIn (mdicReads t) = false ∧
      MDIC_E.isSetIn (mdicReads t) = false) :
    ∀ fuel t, writeMdicLoop mdicReads fuel t = none := by
  intro fuel
  induction fuel with
  | zero => intro t; rfl
  | succ m ih =>
    intro t
    rw [writeMdicLoop]
    simp only [(h t).1, (h t).2, if_false]
    exact ih (t + 1)

/-! ## PHY MDIO client (src/igb/src/phy.rs) -/

def PCTRL_SPEED_SELECTION_MSB_SET : RegFieldValue := mkRegFieldValue 6 1 1

def PCTRL_SPEED_SELECTION_LSB_SET : RegFieldValue := mkRegFieldValue 13 1 1

def PCTRL_DUPLEX_MODE_SET : RegFieldValue := mkRegFieldValue 8 1 1

def PSTATUS_AUTO_NEGOTIATION_COMPLETE_Complete : RegFieldValue :=
  mkRegFieldValue 5 1 1

/-- The body of `Phy::set_speed_and_duplex` after the PHY_CONTROL read
returned `control`: clear the MSB/LSB/duplex bits, set duplex, then encode
the speed pair; `(true, true)` hits the wildcard arm
`return Err(DError::Unknown("Invalid speed combination"))`. -/
def Phy.speed_duplex_control (control : Nat)
    (speed_1000 speed_100 full_duplex : Bool) : Except DError Nat :=
  let c := control &&& u16Not (PCTRL_SPEED_SELECTION_MSB_SET.value |||
    PCTRL_SPEED_SELECTION_LSB_SET.value ||| PCTRL_DUPLEX_MODE_SET.value)
  let c := if full_duplex then c ||| PCTRL_DUPLEX_MODE_SET.value else c
  match speed_1000, speed_100 with
  | true, false => .ok (c ||| PCTRL_SPEED_SELECTION_MSB_SET.value)
  | false, true => .ok (c ||| PCTRL_SPEED_SELECTION_LSB_SET.value)
  | false, false => .ok c
  | true, true => .error (.Unknown "Invalid speed combination")

/-- `Phy::set_speed_and_duplex`: the `?` on `read_mdic(PHY_CONTROL)`
followed by the control-word computation; the `Ok` payload is the control
word passed to `write_mdic`. -/
def Phy.set_speed_and_duplex (readR : Except DError Nat)
    (speed_1000 speed_100 full_duplex : Bool) : Except DError Nat :=
  match readR with
  | .error e => .error e
  | .ok control => Phy.speed_duplex_control control speed_1000 speed_100 full_duplex

/-- Speed-selection bits (MSB = PCTRL bit 6, LSB = PCTRL bit 13) of a
successful `set_speed_and_duplex` result. -/
def speed_selection_bits : Except DError Nat → Option (Bool × Bool)
  | .ok r => some (r.testBit 6, r.testBit 13)
  | .error _ => none

/-- The poll predicate of `Phy::wait_for_auto_negotiation_complete`:
`self.is_auto_negotiation_complete().unwrap_or(false)`, where
`is_auto_negotiation_complete` reads PSTATUS and tests
`AUTO_NEGOTIATION_COMPLETE::Complete.value`.  `statusReads i` is the result
of the i-th `read_status()`. -/
def Phy.auto_neg_poll (statusReads : Nat → Except DError Nat) (i : Nat) : Bool :=
  match statusReads i with
  | .ok status => status &&& PSTATUS_AUTO_NEGOTIATION_COMPLETE_Complete.value != 0
  | .error _ => false

/-- `Phy::wait_for_auto_negotiation_complete`:
`wait_for(.., Duration::from_millis(100), Some(30))`. -/
def Phy.wait_for_auto_negotiation_complete
    (statusReads : Nat → Except DError Nat) : WaitResult :=
  wait_for (Phy.auto_neg_poll statusReads) 100 (some 30)

/-! ## Top-level device (src/igb/src/lib.rs) -/

inductive LinkMode where
  | DirectCooper
  | Sgmii
  | InternalSerdes
deriving DecidableEq

/-- `Igb::open`, parametrised by the outcomes of its fallible steps in source
order: `reset()?`, `link_mode().unwrap()` (`none` models the unwrap panic),
`phy.power_up()?`, `setup_phy_and_the_link()?` (split into its two `?` steps
`power_up` and `enable_auto_negotiation`), then
`wait_for_auto_negotiation_complete()?`.  `config_fc_after_link_up` returns
`Ok(())` and the remaining steps are infallible. -/
def Igb.open_device (linkMode : Option LinkMode) (resetR : WaitResult)
    (powerUpR powerUp2R enableAnR : Except DError Unit)
    (anStatusReads : Nat → Except DError Nat) : Option (Except DError Unit) :=
  match resetR.result with
  | .error e => some (.error e)
  | .ok _ =>
    match linkMode with
    | none => none
    | some _ =>
      match powerUpR with
      | .error e => some (.error e)
      | .ok _ =>
        match powerUp2R with
        | .error e => some (.error e)
        | .ok _ =>
          match enableAnR with
          | .error e => some (.error e)
          | .ok _ =>
            match (Phy.wait_for_auto_negotiation_complete anStatusReads).result with
            | .error e => some (.error e)
            | .ok _ => some (.ok ())

/-! ## Ring engine (src/igb/src/ring.rs, src/igb/src/ring/mod.rs,
src/igb/src/ring/rx.rs, src/igb/src/ring/tx.rs)

`PACKET_SIZE = 2 * 1024 = 2048`. -/

def PACKET_SIZE : Nat := 2 * 1024

/-- TX ring state visible to `send_packet`: the descriptor count and the
TDT/TDH register values it volatile-reads. -/
structure TxRing where
  count : Nat
  tdt : Nat
  tdh : Nat
deriving DecidableEq

/-- `send_packet` (identical control flow in ring.rs
`Ring<AdvTxDesc>::send_packet` and ring/tx.rs `RingInner::send_packet`):
reject oversized buffers with `InvalidParameter`, then reject a full ring
(`(tail + 1) % count == head`) with `NoMemory`, else write the descriptor,
advance TDT and return `Ok`. -/
def TxRing.send_packet (s : TxRing) (len : Nat) : Except DError TxRing :=
  if PACKET_SIZE < len then .error .InvalidParameter
  else
    let tail := s.tdt
    let next_tail := (tail + 1) % s.count
    let head := s.tdh
    if next_tail = head then .error .NoMemory
    else .ok ⟨s.count, next_tail, s.tdh⟩

/-- RX ring state visible to `rcv_buff`: count, the RDT and RDH register
values, the descriptor array (read-format view) and the per-slot
`meta_ls[i].buff_ptr` bookkeeping. -/
structure RxRingS where
  count : Nat
  rdt : Nat
  rdh : Nat
  descs : List AdvRxDescRead
  meta : List Nat
deriving DecidableEq

/-- The posting loop of `rcv_buff`: one descriptor
`AdvRxDesc { read: AdvRxDescRead { pkt_addr: bus_addr, hdr_addr: 0 } }` per
`PACKET_SIZE` chunk, starting at index `i = RDT`, wrapping at `count`,
advancing `bus_addr` and the chunk pointer by `PACKET_SIZE`. -/
def rcv_buff_loop :
    Nat → Nat → Nat → Nat → Nat → List AdvRxDescRead → List Nat →
      List AdvRxDescRead × List Nat × Nat
  | 0, i, _, _, _, descs, meta => (descs, meta, i)
  | chunks + 1, i, bus_addr, ptr, count, descs, meta =>
    rcv_buff_loop chunks (if count ≤ i + 1 then 0 else i + 1)
      (bus_addr + PACKET_SIZE) (ptr + PACKET_SIZE) count
      (descs.set i ⟨bus_addr, 0⟩) (meta.set i ptr)

/-- `Ring<AdvRxDesc>::rcv_buff` (ring.rs lines 291-318; ring/mod.rs lines
171-200 are the same except for an extra `self.buffer.set`): two `assert!`s
on the buffer length (`none` models the panic), then the posting loop from
`i = reg_read(RDT)`, then `mb()` and `reg_write(RDT, i)`.  It never reads
RDH and has no full-ring check: the only outcome besides an assertion
failure is `Ok(())`. -/
def RxRingS.rcv_buff (s : RxRingS) (buffLen bus_addr ptr : Nat) :
    Option (Except DError RxRingS) :=
  if buffLen < PACKET_SIZE then none
  else if buffLen % PACKET_SIZE != 0 then none
  else
    let r := rcv_buff_loop (buffLen / PACKET_SIZE) s.rdt bus_addr ptr
      s.count s.descs s.meta
    some (.ok ⟨s.count, r.2.2, s.rdh, r.1, r.2.1⟩)

/-- Modelled from the spec: the constant `rx_desc_consts::DD_BIT` referenced
by ring.rs and ring/rx.rs is absent from src/igb/src/descriptor.rs; the spec
(§3) places DD at bit 0 of the extended status, so `DD_BIT = 0x1`. -/
def rx_desc_consts_DD_BIT : Nat := 1

/-- Modelled from the spec: `tx_desc_consts::DD_BIT` is likewise absent from
src/igb/src/descriptor.rs; both the spec (§3, TX write-back status bit 0)
and the in-src `TX_DESC_STATUS::DD` field (offset 0, mask 1) give
`DD_BIT = 0x1`. -/
def tx_desc_consts_DD_BIT : Nat := 1

/-- `Ring<AdvRxDesc>::is_descriptor_done` (ring.rs lines 246-257, same body
in ring/rx.rs `RingInner::is_descriptor_done`): an index at or past
`descriptors.len()` returns `false` before any array access; otherwise test
DD in the write-back view's `error_type_status`.  The list holds each
slot's `error_type_status` dword. -/
def Ring.is_descriptor_done (error_type_statuses : List Nat)
    (desc_index : Nat) : Bool :=
  if error_type_statuses.length ≤ desc_index then false
  else error_type_statuses.getD desc_index 0 &&& rx_desc_consts_DD_BIT != 0

/-- `Ring<AdvTxDesc>::is_tx_descriptor_done` (ring.rs lines 445-456, same
body in ring/mod.rs): the same guard, testing DD in the write-back `status`
word. -/
def Ring.is_tx_descriptor_done (statuses : List Nat) (desc_index : Nat) : Bool :=
  if statuses.length ≤ desc_index then false
  else statuses.getD desc_index 0 &&& tx_desc_consts_DD_BIT != 0

/-! ## Helper lemmas on bits -/

theorem testBit_or_right_true (x k i : Nat) (hk : k.testBit i = true) :
    (x ||| k).testBit i = true := by
  rw [Nat.testBit_lor, hk, Bool.or_true]

theorem testBit_or_of_left (x k i : Nat) (hx : x.testBit i = false) :
    (x ||| k).testBit i = k.testBit i := by
  rw [Nat.testBit_lor, hx, Bool.false_or]

theorem testBit_and_of_right_false (x m i : Nat) (hm : m.testBit i = false) :
    (x &&& m).testBit i = false := by
  rw [Nat.testBit_land, hm, Bool.and_false]

/-! ## Theorems for the ring, MAC, PHY and top-level claims -/

/-- C1 evaluation: an RX ring with `count = 8`, hardware head 0 and
`RDT = 7`, i.e. seven (= count-1) buffers already posted, so
`(sw_tail + 1) mod count = hw_head` and the ring is full.  `rcv_buff` of one
more 2048-byte buffer does not fail with `NoMemory`: it overwrites slot 7
and advances RDT to 0 (= the hardware head), returning `Ok(())`.  The
function contains no full-ring check at all — it never reads RDH. -/
theorem c1_rcv_buff_accepts_full_ring :
    RxRingS.rcv_buff
        ⟨8, 7, 0, List.replicate 8 ⟨0, 0⟩, List.replicate 8 0⟩ 2048 4096 8192 =
      some (.ok ⟨8, 0, 0,
        (List.replicate 8 (⟨0, 0⟩ : AdvRxDescRead)).set 7 ⟨4096, 0⟩,
        (List.replicate 8 (0 : Nat)).set 7 8192⟩) ∧
    (7 + 1) % 8 = 0 := by
  decide

/-- C2 counterexample: on a full TX ring (`count = 8`, `TDT = 7`, `TDH = 0`,
so `(tail + 1) mod count = head`) an oversized buffer (`len = 2049`) fails
with `InvalidParameter`, not `NoMemory` — the length check runs first, so
"fails with NoMemory exactly when the ring is full" is false as stated. -/
theorem c2_counterexample_oversized_on_full_ring :
    TxRing.send_packet ⟨8, 7, 0⟩ 2049 = .error .InvalidParameter ∧
    (7 + 1) % 8 = 0 ∧
    TxRing.send_packet ⟨8, 7, 0⟩ 2049 ≠ .error .NoMemory := by
  decide

/-- C2 amended: `send_packet` fails with `InvalidParameter` exactly when
`len > pkt_size` (2048) — this check runs first; it fails with `NoMemory`
exactly when `len ≤ pkt_size` and `(tail + 1) mod count = head`; and it
returns `Ok` with TDT advanced exactly when `len ≤ pkt_size` and the ring
is not full.  In particular `len = pkt_size` passes the size check and
`len = pkt_size + 1` fails with `InvalidParameter`. -/
theorem c2_send_packet_result_cases (s : TxRing) (len : Nat) :
    (s.send_packet len = .error .InvalidParameter ↔ PACKET_SIZE < len) ∧
    (s.send_packet len = .error .NoMemory ↔
      (len ≤ PACKET_SIZE ∧ (s.tdt + 1) % s.count = s.tdh)) ∧
    (s.send_packet len = .ok ⟨s.count, (s.tdt + 1) % s.count, s.tdh⟩ ↔
      (len ≤ PACKET_SIZE ∧ (s.tdt + 1) % s.count ≠ s.tdh)) := by
  unfold TxRing.send_packet PACKET_SIZE
  refine ⟨?_, ?_, ?_⟩ <;> split_ifs with h1 <;> simp_all <;>
    (try split_ifs with h2) <;> simp_all <;> omega

/-- C6 counterexample: with an MDIC register stream in which READY and E are
never set, the `read_mdic` polling loop has still not returned after 1500
iterations — more than any of the driver's poll budgets — and in particular
has not returned `Timeout`.  The source loop is a bare `loop { .. }` with
neither an attempt bound nor a sleep. -/
theorem c6_counterexample_mdic_never_times_out :
    readMdicLoop (fun _ => 0) 1500 0 = none ∧
    readMdicLoop (fun _ => 0) 1500 0 ≠ some (.error DError.Timeout) := by
  have h := readMdicLoop_quiet (fun _ => 0)
    (fun t => ⟨(by decide : MDIC_READY.isSetIn 0 = false),
      (by decide : MDIC_E.isSetIn 0 = false)⟩) 1500 0
  exact ⟨h, by rw [h]; exact fun hc => Option.noConfusion hc⟩

/-- C6 amended: the `wait_for`-based polls (reset, queue enable,
auto-negotiation) are bounded and return `Timeout` on exhaustion, but the
MDIC READY polls inside `read_mdic` and `write_mdic` are unbounded busy
loops with no sleep: if the hardware never sets READY or E they never
return (and never produce `Timeout`). -/
theorem c6_mdic_poll_unbounded (mdicReads : Nat → Nat)
    (h : ∀ t, MDIC_READY.isSetIn (mdicReads t) = false ∧
      MDIC_E.isSetIn (mdicReads t) = false) :
    (∀ fuel t, readMdicLoop mdicReads fuel t = none) ∧
    (∀ fuel t, writeMdicLoop mdicReads fuel t = none) ∧
    (∀ (f : Nat → Bool) (n : Nat), (∀ j, f j = false) →
      (wait_for f 1 (some n)).result = .error .Timeout) := by
  refine ⟨readMdicLoop_quiet mdicReads h, writeMdicLoop_quiet mdicReads h, ?_⟩
  intro f n hf
  unfold wait_for
  rw [Option.getD_some, waitForGo_timeout f 1 n 0 hf]

/-- C6 witness: the amended statement at the all-zero register stream. -/
theorem c6_witness :
    readMdicLoop (fun _ => 0) 7 0 = none ∧
    writeMdicLoop (fun _ => 0) 7 0 = none ∧
    (wait_for (fun _ => false) 1 (some 3)).result = .error .Timeout := by
  have h := c6_mdic_poll_unbounded (fun _ => 0)
    (fun t => ⟨(by decide : MDIC_READY.isSetIn 0 = false),
      (by decide : MDIC_E.isSetIn 0 = false)⟩)
  exact ⟨h.1 7 0, h.2.1 7 0, h.2.2 (fun _ => false) 3 (fun j => rfl)⟩

/-- C7 counterexample: with the PHY_CONTROL read returning 0,
`set_speed_and_duplex(true, true, false)` fails with
`Unknown("Invalid speed combination")`, not with `InvalidParameter` as
claimed. -/
theorem c7_counterexample_true_true_error_kind :
    Phy.set_speed_and_duplex (.ok 0) true true false =
      .error (.Unknown "Invalid speed combination") ∧
    Phy.set_speed_and_duplex (.ok 0) true true false ≠
      .error .InvalidParameter := by
  decide

/-- C7 amended: for every PHY_CONTROL value and duplex flag, the
`(true, true)` speed combination fails with
`Unknown("Invalid speed combination")`, and the remaining combinations
encode the speed selection (MSB = PCTRL bit 6, LSB = PCTRL bit 13) as
`(1,0)` for 1000 Mb/s, `(0,1)` for 100 Mb/s and `(0,0)` for 10 Mb/s. -/
theorem c7_speed_duplex_encoding (control : Nat) (full_duplex : Bool) :
    Phy.speed_duplex_control control true true full_duplex =
      .error (.Unknown "Invalid speed combination") ∧
    speed_selection_bits (Phy.speed_duplex_control control true false full_duplex) =
      some (true, false) ∧
    speed_selection_bits (Phy.speed_duplex_control control false true full_duplex) =
      some (false, true) ∧
    speed_selection_bits (Phy.speed_duplex_control control false false full_duplex) =
      some (false, false) := by
  have hm6 : (u16Not (PCTRL_SPEED_SELECTION_MSB_SET.value |||
      PCTRL_SPEED_SELECTION_LSB_SET.value |||
      PCTRL_DUPLEX_MODE_SET.value)).testBit 6 = false := by decide
  have hm13 : (u16Not (PCTRL_SPEED_SELECTION_MSB_SET.value |||
      PCTRL_SPEED_SELECTION_LSB_SET.value |||
      PCTRL_DUPLEX_MODE_SET.value)).testBit 13 = false := by decide
  have e1 : (PCTRL_DUPLEX_MODE_SET.value).testBit 6 = false := by decide
  have e2 : (PCTRL_SPEED_SELECTION_MSB_SET.value).testBit 6 = true := by decide
  have e3 : (PCTRL_SPEED_SELECTION_MSB_SET.value).testBit 13 = false := by decide
  have e4 : (PCTRL_SPEED_SELECTION_LSB_SET.value).testBit 6 = false := by decide
  have e5 : (PCTRL_SPEED_SELECTION_LSB_SET.value).testBit 13 = true := by decide
  have e6 : (PCTRL_DUPLEX_MODE_SET.value).testBit 13 = false := by decide
  cases full_duplex <;>
    refine ⟨rfl, ?_, ?_, ?_⟩ <;>
      simp [Phy.speed_duplex_control, speed_selection_bits, Nat.testBit_lor,
        Nat.testBit_land, hm6, hm13, e1, e2, e3, e4, e5, e6]

/-- C8: `Mac::reset` sets CTRL.RST (bit 26) and CTRL.PHY_RST (bit 31) in its
`modify`, then polls CTRL.RST at 1 ms intervals with a budget of 1000 tries:
if every read still has RST set it returns `Timeout` after exactly 1000
polls (1000 ms slept); if the k-th read (k < 1000) is the first with RST
clear it returns `Ok` after k + 1 polls. -/
theorem c8_reset_behaviour (ctrl : Nat) (ctrlReads : Nat → Nat) :
    (Mac.ctrl_after_reset_write ctrl).testBit 26 = true ∧
    (Mac.ctrl_after_reset_write ctrl).testBit 31 = true ∧
    ((∀ i, ctrlReads i &&& ((2 ^ 1 - 1) <<< 26) ≠ 0) →
      Mac.reset ctrlReads = ⟨.error .Timeout, 1000, 1000⟩) ∧
    (∀ k, k < 1000 → (∀ j, j < k → ctrlReads j &&& ((2 ^ 1 - 1) <<< 26) ≠ 0) →
      ctrlReads k &&& ((2 ^ 1 - 1) <<< 26) = 0 →
      Mac.reset ctrlReads = ⟨.ok (), k + 1, k⟩) := by
  refine ⟨?_, ?_, ?_, ?_⟩
  · unfold Mac.ctrl_after_reset_write regModify32
    exact testBit_or_right_true _ _ 26 (by decide)
  · unfold Mac.ctrl_after_reset_write regModify32
    exact testBit_or_right_true _ _ 31 (by decide)
  · intro h
    have hp : ∀ j, Mac.reset_poll ctrlReads j = false := by
      intro j
      simp only [Mac.reset_poll, beq_eq_false_iff_ne, ne_eq]
      exact h j
    unfold Mac.reset wait_for
    rw [Option.getD_some, waitForGo_timeout _ _ 1000 0 hp]
  · intro k hk hbefore hclear
    have hs := waitForGo_success (Mac.reset_poll ctrlReads) 1 1000 k 0 hk
      (fun j hj => by
        simp only [Nat.zero_add, Mac.reset_poll, beq_eq_false_iff_ne, ne_eq]
        exact hbefore j hj)
      (by
        simp only [Nat.zero_add, Mac.reset_poll, beq_iff_eq]
        exact hclear)
    unfold Mac.reset wait_for
    rw [Option.getD_some, hs]
    norm_num

/-- C8 witness: a CTRL stream that never clears RST yields `Timeout` after
1000 polls; one with RST clear from the start yields `Ok` after one poll. -/
theorem c8_witness :
    Mac.reset (fun _ => (2 ^ 1 - 1) <<< 26) = ⟨.error .Timeout, 1000, 1000⟩ ∧
    Mac.reset (fun _ => 0) = ⟨.ok (), 1, 0⟩ := by
  have h1 := c8_reset_behaviour 0 (fun _ => (2 ^ 1 - 1) <<< 26)
  have h2 := c8_reset_behaviour 0 (fun _ => 0)
  exact ⟨h1.2.2.1 (fun i =>
      (by decide : ((2 ^ 1 - 1) <<< 26 : Nat) &&& ((2 ^ 1 - 1) <<< 26) ≠ 0)),
    h2.2.2.2 0 (by decide) (fun j hj => absurd hj (Nat.not_lt_zero j))
      (by decide : ((0 : Nat) &&& ((2 ^ 1 - 1) <<< 26)) = 0)⟩

/-- C9: `wait_for_auto_negotiation_complete` polls
PSTATUS.AUTO_NEGOTIATION_COMPLETE at 100 ms intervals with a budget of 30
tries; if the bit is never observed set it returns `Timeout` after 30 polls
and 3000 ms (= 3 s) of sleeping, and `open()` (with every earlier step
succeeding) then propagates exactly that `Timeout`. -/
theorem c9_autoneg_timeout (lm : LinkMode) (anReads : Nat → Except DError Nat)
    (h : ∀ i, Phy.auto_neg_poll anReads i = false) :
    Phy.wait_for_auto_negotiation_complete anReads =
      ⟨.error .Timeout, 30, 3000⟩ ∧
    Igb.open_device (some lm) ⟨.ok (), 1, 0⟩ (.ok ()) (.ok ()) (.ok ()) anReads =
      some (.error .Timeout) := by
  have hw : Phy.wait_for_auto_negotiation_complete anReads =
      ⟨.error .Timeout, 30, 3000⟩ := by
    unfold Phy.wait_for_auto_negotiation_complete wait_for
    rw [Option.getD_some, waitForGo_timeout _ _ 30 0 h]
  refine ⟨hw, ?_⟩
  unfold Igb.open_device
  rw [hw]

/-- C9 witness: a PHY whose status reads always return 0 (bit 5 clear). -/
theorem c9_witness :
    Phy.wait_for_auto_negotiation_complete (fun _ => .ok 0) =
      ⟨.error .Timeout, 30, 3000⟩ ∧
    Igb.open_device (some .DirectCooper) ⟨.ok (), 1, 0⟩ (.ok ()) (.ok ()) (.ok ())
      (fun _ => .ok 0) = some (.error .Timeout) :=
  c9_autoneg_timeout .DirectCooper (fun _ => .ok 0) (fun _ => rfl)

/-- C10: for any index at or past the descriptor count, both done-queries
answer `false` — the guard runs before any descriptor access, so an
out-of-range index can neither reach the array nor report a spurious
completion, even when every in-range slot has DD set. -/
theorem c10_done_query_oob_false (rxStatuses txStatuses : List Nat) (i j : Nat)
    (hi : rxStatuses.length ≤ i) (hj : txStatuses.length ≤ j) :
    Ring.is_descriptor_done rxStatuses i = false ∧
    Ring.is_tx_descriptor_done txStatuses j = false := by
  constructor <;>
    simp [Ring.is_descriptor_done, Ring.is_tx_descriptor_done, hi, hj]

/-- C10 witness: rings whose every slot reads as done still answer `false`
out of range. -/
theorem c10_witness :
    Ring.is_descriptor_done [1, 1, 1] 3 = false ∧
    Ring.is_tx_descriptor_done [1] 5 = false :=
  c10_done_query_oob_false [1, 1, 1] [1] 3 5 (by decide) (by decide)
